import Mathlib

/-!
Verification development for the operation-dispatch and argument-normalization
core of the mcp-mongo-server repository (src/schemas/call.ts).

The JSON argument values received by the dispatcher are modelled by `JValue`;
the values produced by the normalizer (which may additionally contain ObjectId
and Date instances) are modelled by `BValue`.  JSON numerals are modelled as
integers (the requests exercised by the specification use only integral
numbers).  The MongoDB driver is modelled as an abstract, total `Gateway`
oracle; every handler additionally returns the list of gateway calls it
issued, so claims of the form "fails before any data-store call" become
statements about that trace being empty.
-/

/-- JSON values, as they arrive in a request's argument bag. -/
inductive JValue where
  | null : JValue
  | bool : Bool → JValue
  | num : Int → JValue
  | str : String → JValue
  | arr : List JValue → JValue
  | obj : List (String × JValue) → JValue

/-- BSON-like values: JSON values plus the ObjectId and Date instances the
normalizer creates (each remembers the string it was built from). -/
inductive BValue where
  | null : BValue
  | bool : Bool → BValue
  | num : Int → BValue
  | str : String → BValue
  | oid : String → BValue
  | date : String → BValue
  | arr : List BValue → BValue
  | obj : List (String × BValue) → BValue

mutual
/-- Embed a JSON value unchanged into the BSON-like value type
(a JavaScript value that is "returned as is"). -/
def toB : JValue → BValue
  | .null => .null
  | .bool b => .bool b
  | .num n => .num n
  | .str s => .str s
  | .arr xs => .arr (toBList xs)
  | .obj kvs => .obj (toBEntries kvs)

/-- Embed a list of JSON values into BSON-like values. -/
def toBList : List JValue → List BValue
  | [] => []
  | v :: vs => toB v :: toBList vs

/-- Embed JSON object entries into BSON-like object entries. -/
def toBEntries : List (String × JValue) → List (String × BValue)
  | [] => []
  | (k, v) :: kvs => (k, toB v) :: toBEntries kvs
end

/-- JavaScript truthiness of a JSON value (undefined is conflated with null;
both are falsy and the dispatcher only ever tests them for truthiness). -/
def truthy : JValue → Bool
  | .null => false
  | .bool b => b
  | .num n => decide (n ≠ 0)
  | .str s => decide (s ≠ "")
  | .arr _ => true
  | .obj _ => true

/-- Hexadecimal digit, as in the character class `[0-9a-fA-F]`. -/
def isHexChar (c : Char) : Bool :=
  c.isDigit || (decide ('a' ≤ c) && decide (c ≤ 'f')) || (decide ('A' ≤ c) && decide (c ≤ 'F'))

/-- Source `isObjectIdString`: the string matches `^[0-9a-fA-F]{24}$`. -/
def isObjectIdString (s : String) : Bool :=
  decide (s.data.length = 24) && s.data.all isHexChar

/-- Consume exactly `n` decimal digits from the front of the character list. -/
def consumeDigits : Nat → List Char → Option (List Char)
  | 0, cs => some cs
  | _ + 1, [] => none
  | n + 1, c :: cs => if c.isDigit then consumeDigits n cs else none

/-- Consume one expected character from the front of the character list. -/
def consumeChar (c : Char) : List Char → Option (List Char)
  | [] => none
  | c' :: cs => if c' = c then some cs else none

/-- Tail of the ISO pattern after the seconds: `(\.\d{1,3})?Z$`. -/
def isoSecondsTail : List Char → Bool
  | ['Z'] => true
  | '.' :: rest =>
      let ds := rest.takeWhile Char.isDigit
      decide (1 ≤ ds.length) && decide (ds.length ≤ 3)
        && decide (rest.dropWhile Char.isDigit = ['Z'])
  | _ => false

/-- Source `isISODateString`: the string matches
`^\d{4}-\d{2}-\d{2}T\d{2}:\d{2}:\d{2}(\.\d{1,3})?Z$`. -/
def isISODateString (s : String) : Bool :=
  match (consumeDigits 4 s.data).bind (consumeChar '-')
      |>.bind (consumeDigits 2) |>.bind (consumeChar '-')
      |>.bind (consumeDigits 2) |>.bind (consumeChar 'T')
      |>.bind (consumeDigits 2) |>.bind (consumeChar ':')
      |>.bind (consumeDigits 2) |>.bind (consumeChar ':')
      |>.bind (consumeDigits 2) with
  | some rest => isoSecondsTail rest
  | none => false

/-- JavaScript `String.prototype.startsWith`. -/
def strStartsWith (s p : String) : Bool :=
  p.data.isPrefixOf s.data

/-- JavaScript `String.prototype.endsWith`. -/
def strEndsWith (s p : String) : Bool :=
  p.data.reverse.isPrefixOf s.data.reverse

/-- JavaScript `String.prototype.substring` (clamps and swaps its bounds). -/
def jsSubstring (s : String) (a b : Nat) : String :=
  ⟨(s.data.drop (min a b)).take (max a b - min a b)⟩

/-- The inner literal the source extracts from an `ISODate(...)` wrapper:
`value.substring(8, value.length - 2)`. -/
def isodateInner (s : String) : String :=
  jsSubstring s 8 (s.data.length - 2)

/-- ObjectId conversion settings (`auto | none | force`); `other` models any
other truthy value reaching the untyped `objectIdMode` cast, which matches
none of the three string comparisons in the source. -/
inductive OidMode where
  | auto : OidMode
  | none : OidMode
  | force : OidMode
  | other : OidMode
  deriving DecidableEq

/-- JavaScript `String.prototype.toLowerCase`, for the ASCII field names the
dispatcher deals with. -/
def strToLower (s : String) : String :=
  ⟨s.data.map Char.toLower⟩

/-- Source `isObjectIdField`: case-insensitively, the field name is `_id`,
`id`, or ends with `id` or `_id`. -/
def isObjectIdField (fieldName : String) : Bool :=
  let lowerFieldName := strToLower fieldName
  decide (lowerFieldName = "_id") || decide (lowerFieldName = "id")
    || strEndsWith lowerFieldName "id" || strEndsWith lowerFieldName "_id"

/-- String conversion performed by the `objectIdMode === "none"` branch of
`processObjectIdInFilter` (dates only), both for direct values and for array
items. -/
def noneStringConv (s : String) : BValue :=
  if isISODateString s then .date s
  else if strStartsWith s "ISODate(" && strEndsWith s ")" then
    let dateString := isodateInner s
    if isISODateString dateString then .date dateString else .str s
  else .str s

/-- String conversion the main loop of `processObjectIdInFilter` applies to a
direct object value: an ObjectId-shaped string is either converted or kept
verbatim without falling through to the date checks. -/
def mainStringConv (mode : OidMode) (key : String) (s : String) : BValue :=
  if isObjectIdString s then
    if mode = OidMode.force ∨ (mode = OidMode.auto ∧ isObjectIdField key = true) then
      .oid s
    else .str s
  else if isISODateString s then .date s
  else if strStartsWith s "ISODate(" && strEndsWith s ")" then
    let dateString := isodateInner s
    if isISODateString dateString then .date dateString else .str s
  else .str s

/-- String conversion the main loop applies to an array item (the parent key
drives the field-name heuristic; here a non-converted ObjectId-shaped string
does fall through to the date checks). -/
def mainItemStringConv (mode : OidMode) (key : String) (s : String) : BValue :=
  if isObjectIdString s
      ∧ (mode = OidMode.force ∨ (mode = OidMode.auto ∧ isObjectIdField key = true)) then
    .oid s
  else if isISODateString s then .date s
  else if strStartsWith s "ISODate(" && strEndsWith s ")" then
    let dateString := isodateInner s
    if isISODateString dateString then .date dateString else .str s
  else .str s

/-- Conversion applied to one array item: only string items are touched,
every other item (including nested objects) is returned as is. -/
def itemConv (mode : OidMode) (key : String) : JValue → BValue
  | .str s => if mode = OidMode.none then noneStringConv s else mainItemStringConv mode key s
  | v => toB v

mutual
/-- Source `processObjectIdInFilter`: walks the entries of an object,
converting string values to ObjectIds/Dates per the mode and recursing into
nested objects; array items are converted individually (without recursing
into items that are themselves objects). -/
def processObjectIdInFilter (mode : OidMode) : List (String × JValue) → List (String × BValue)
  | [] => []
  | (key, value) :: rest =>
      (key, procValue mode key value) :: processObjectIdInFilter mode rest

/-- Conversion of a single object entry value of `processObjectIdInFilter`. -/
def procValue (mode : OidMode) (key : String) : JValue → BValue
  | .str s => if mode = OidMode.none then noneStringConv s else mainStringConv mode key s
  | .arr xs => .arr (procArray mode key xs)
  | .obj kvs => .obj (processObjectIdInFilter mode kvs)
  | .null => .null
  | .bool b => .bool b
  | .num n => .num n

/-- Array mapping of `processObjectIdInFilter` (`value.map(item => ...)`). -/
def procArray (mode : OidMode) (key : String) : List JValue → List BValue
  | [] => []
  | item :: rest => itemConv mode key item :: procArray mode key rest
end

/-- Source `parseSort`: falsy, non-object or array sorts become null; from an
object only entries whose value is exactly the number 1 or -1 are kept, and
the sort becomes null when no entry remains. -/
def parseSort (sort : JValue) : JValue :=
  if truthy sort = false then .null
  else match sort with
    | .obj kvs =>
        let validSort := kvs.filter fun kv =>
          match kv.2 with
          | .num n => decide (n = 1) || decide (n = -1)
          | _ => false
        if validSort.length > 0 then .obj validSort else .null
    | _ => .null

/-- Argument bags and JavaScript objects: ordered key/value lists. -/
abbrev Args := List (String × JValue)

/-- First binding of a key in an object (JS objects never hold duplicates). -/
def lookupArg : Args → String → Option JValue
  | [], _ => Option.none
  | (k, v) :: rest, key => if k = key then some v else lookupArg rest key

/-- Property read; an absent property (undefined) is conflated with null,
which has the same truthiness and is equally opaque to the dispatcher. -/
def jsGet (args : Args) (key : String) : JValue :=
  (lookupArg args key).getD .null

/-- JavaScript property assignment: overwrites the first binding in place,
otherwise appends a new binding. -/
def jsSet : Args → String → JValue → Args
  | [], key, v => [(key, v)]
  | (k, w) :: rest, key, v =>
      if k = key then (k, v) :: rest else (k, w) :: jsSet rest key v

/-- JavaScript `Object.assign(target, source)`. -/
def objectAssign (target source : Args) : Args :=
  source.foldl (fun t kv => jsSet t kv.1 kv.2) target

/-- Decimal digit character for the given digit value. -/
def natDigitChar (n : Nat) : Char :=
  Char.ofNat (48 + n)

/-- Digit list of a natural number (fuel-driven so it reduces definitionally). -/
def natToStringAux : Nat → Nat → List Char → List Char
  | 0, _, acc => acc
  | fuel + 1, n, acc =>
      if n < 10 then natDigitChar n :: acc
      else natToStringAux fuel (n / 10) (natDigitChar (n % 10) :: acc)

/-- Decimal rendering of a natural number (JavaScript array/string index keys). -/
def natToString (n : Nat) : String :=
  ⟨natToStringAux (n + 1) n []⟩

/-- Index-keyed entries of a JavaScript array, as `Object.entries` sees them. -/
def arrayEntries (xs : List JValue) : List (String × JValue) :=
  xs.enum.map fun p => (natToString p.1, p.2)

/-- JSON whitespace. -/
def jsonWs (c : Char) : Bool :=
  c = ' ' || c = '\t' || c = '\n' || c = '\r'

/-- Skip JSON whitespace. -/
def skipWs (cs : List Char) : List Char :=
  cs.dropWhile jsonWs

/-- Value of a hexadecimal digit character. -/
def hexDigitVal (c : Char) : Option Nat :=
  if c.isDigit then some (c.toNat - 48)
  else if decide ('a' ≤ c) && decide (c ≤ 'f') then some (c.toNat - 87)
  else if decide ('A' ≤ c) && decide (c ≤ 'F') then some (c.toNat - 55)
  else Option.none

/-- JSON string body parser (after the opening quote); invalid `\u` escapes
are mapped to the NUL character rather than rejected (lone surrogates are not
representable; no claim exercises them). -/
def parseJStrAux : Nat → List Char → List Char → Option (String × List Char)
  | 0, _, _ => Option.none
  | _ + 1, [], _ => Option.none
  | fuel + 1, c :: cs, acc =>
      if c = '"' then some (⟨acc.reverse⟩, cs)
      else if c = '\\' then
        match cs with
        | [] => Option.none
        | e :: cs' =>
            if e = '"' then parseJStrAux fuel cs' ('"' :: acc)
            else if e = '\\' then parseJStrAux fuel cs' ('\\' :: acc)
            else if e = '/' then parseJStrAux fuel cs' ('/' :: acc)
            else if e = 'n' then parseJStrAux fuel cs' ('\n' :: acc)
            else if e = 't' then parseJStrAux fuel cs' ('\t' :: acc)
            else if e = 'r' then parseJStrAux fuel cs' ('\r' :: acc)
            else if e = 'b' then parseJStrAux fuel cs' (Char.ofNat 8 :: acc)
            else if e = 'f' then parseJStrAux fuel cs' (Char.ofNat 12 :: acc)
            else if e = 'u' then
              match cs' with
              | h1 :: h2 :: h3 :: h4 :: cs'' =>
                  match hexDigitVal h1, hexDigitVal h2, hexDigitVal h3, hexDigitVal h4 with
                  | some a, some b, some c2, some d =>
                      parseJStrAux fuel cs''
                        (Char.ofNat (((a * 16 + b) * 16 + c2) * 16 + d) :: acc)
                  | _, _, _, _ => Option.none
              | _ => Option.none
            else Option.none
      else parseJStrAux fuel cs (c :: acc)

/-- JSON numeric literal parser, restricted to the integral numerals this
model supports (a fraction or exponent part is not representable in the
integer-valued `JValue.num` and is rejected; no claim uses one). -/
def parseJNum (cs : List Char) : Option (Int × List Char) :=
  let neg := match cs with | '-' :: _ => true | _ => false
  let cs1 := if neg then cs.drop 1 else cs
  match cs1 with
  | [] => Option.none
  | c :: _ =>
      if c.isDigit = false then Option.none
      else
        let ds := cs1.takeWhile Char.isDigit
        let rest := cs1.dropWhile Char.isDigit
        if ds.length > 1 ∧ ds.headD '0' = '0' then Option.none
        else match rest with
          | '.' :: _ => Option.none
          | 'e' :: _ => Option.none
          | 'E' :: _ => Option.none
          | _ =>
              let n : Int := Int.ofNat (ds.foldl (fun a d => a * 10 + (d.toNat - 48)) 0)
              some (if neg then -n else n, rest)

mutual
/-- JSON value parser (fuel-driven recursive descent; the callers always pass
enough fuel for the inputs that arise). -/
def parseJValue : Nat → List Char → Option (JValue × List Char)
  | 0, _ => Option.none
  | fuel + 1, cs0 =>
      match skipWs cs0 with
      | [] => Option.none
      | c :: rest =>
          if c = 'n' then
            match rest with
            | 'u' :: 'l' :: 'l' :: r => some (.null, r)
            | _ => Option.none
          else if c = 't' then
            match rest with
            | 'r' :: 'u' :: 'e' :: r => some (.bool true, r)
            | _ => Option.none
          else if c = 'f' then
            match rest with
            | 'a' :: 'l' :: 's' :: 'e' :: r => some (.bool false, r)
            | _ => Option.none
          else if c = '"' then
            match parseJStrAux (rest.length + 1) rest [] with
            | some (s, r) => some (.str s, r)
            | Option.none => Option.none
          else if c = '[' then
            match skipWs rest with
            | ']' :: r => some (.arr [], r)
            | cs2 =>
                match parseJArrayItems fuel cs2 with
                | some (xs, r) => some (.arr xs, r)
                | Option.none => Option.none
          else if c = '{' then
            match skipWs rest with
            | '}' :: r => some (.obj [], r)
            | cs2 =>
                match parseJObjectItems fuel cs2 with
                | some (kvs, r) =>
                    some (.obj (kvs.foldl (fun t kv => jsSet t kv.1 kv.2) []), r)
                | Option.none => Option.none
          else
            match parseJNum (c :: rest) with
            | some (n, r) => some (.num n, r)
            | Option.none => Option.none

/-- JSON array items parser (positioned at the first item). -/
def parseJArrayItems : Nat → List Char → Option (List JValue × List Char)
  | 0, _ => Option.none
  | fuel + 1, cs =>
      match parseJValue fuel cs with
      | Option.none => Option.none
      | some (v, r) =>
          match skipWs r with
          | ',' :: r2 =>
              match parseJArrayItems fuel (skipWs r2) with
              | some (vs, r3) => some (v :: vs, r3)
              | Option.none => Option.none
          | ']' :: r2 => some ([v], r2)
          | _ => Option.none

/-- JSON object members parser (positioned at the first key). -/
def parseJObjectItems : Nat → List Char → Option (List (String × JValue) × List Char)
  | 0, _ => Option.none
  | fuel + 1, cs =>
      match cs with
      | '"' :: r =>
          match parseJStrAux (r.length + 1) r [] with
          | Option.none => Option.none
          | some (k, r1) =>
              match skipWs r1 with
              | ':' :: r2 =>
                  match parseJValue fuel r2 with
                  | Option.none => Option.none
                  | some (v, r3) =>
                      match skipWs r3 with
                      | ',' :: r4 =>
                          match parseJObjectItems fuel (skipWs r4) with
                          | some (kvs, r5) => some ((k, v) :: kvs, r5)
                          | Option.none => Option.none
                      | '}' :: r4 => some ([(k, v)], r4)
                      | _ => Option.none
              | _ => Option.none
      | _ => Option.none
end

/-- JavaScript `JSON.parse`, returning none when the parse throws. -/
def jsonParse (s : String) : Option JValue :=
  match parseJValue (s.data.length + 1) s.data with
  | some (v, rest) => if skipWs rest = [] then some v else Option.none
  | Option.none => Option.none

/-- JavaScript `Object.entries`, as `processObjectIdInFilter` applies it to an
arbitrary parsed value: objects give their bindings, arrays and strings give
index-keyed entries, numbers and booleans give no entries, and null makes it
throw a TypeError (the `Option.none` case). -/
def jsEntries : JValue → Option (List (String × JValue))
  | .null => Option.none
  | .obj kvs => some kvs
  | .arr xs => some (arrayEntries xs)
  | .str s => some (s.data.enum.map fun p => (natToString p.1, .str ⟨[p.2]⟩))
  | .num _ => some []
  | .bool _ => some []

/-- Source `parseFilter`: a falsy filter is the empty filter; a string is
JSON-parsed and the parsed value (whatever its shape) is handed to
`processObjectIdInFilter`, any exception from this branch being reported as
the invalid-format error; a direct plain object is normalized; every other
direct value is rejected. -/
def parseFilter (filter : JValue) (objectIdMode : OidMode) : Except String (List (String × BValue)) :=
  if truthy filter = false then .ok []
  else match filter with
    | .str s =>
        match jsonParse s with
        | Option.none => .error "Invalid filter format: must be a valid JSON object"
        | some v =>
            match jsEntries v with
            | Option.none => .error "Invalid filter format: must be a valid JSON object"
            | some kvs => .ok (processObjectIdInFilter objectIdMode kvs)
    | .obj kvs => .ok (processObjectIdInFilter objectIdMode kvs)
    | _ => .error "Query filter must be a plain object or ObjectId"

/-- JavaScript truthiness of a BSON-like value. -/
def truthyB : BValue → Bool
  | .null => false
  | .bool b => b
  | .num n => decide (n ≠ 0)
  | .str s => decide (s ≠ "")
  | .oid _ => true
  | .date _ => true
  | .arr _ => true
  | .obj _ => true

/-- First binding of a key in a BSON-like document. -/
def lookupB : List (String × BValue) → String → Option BValue
  | [], _ => Option.none
  | (k, v) :: rest, key => if k = key then some v else lookupB rest key

/-- Field read on a BSON-like document (absent fields read as null). -/
def bGet (kvs : List (String × BValue)) (key : String) : BValue :=
  (lookupB kvs key).getD .null

/-- Field read through a BSON-like value (`doc.field` in JavaScript). -/
def bField (v : BValue) (key : String) : BValue :=
  match v with
  | .obj kvs => bGet kvs key
  | _ => .null

/-- The `(x as number) || d` default idiom on a numeric option argument.
Numeric options are modelled at their declared number type: a non-numeric
argument behaves like an absent one. -/
def numericOr (v : Option JValue) (d : Int) : Int :=
  match v with
  | some (.num n) => if n = 0 then d else n
  | _ => d

/-- JavaScript `Array.prototype.slice` index resolution. -/
def jsSliceIdx (len : Nat) (i : Int) : Nat :=
  if i < 0 then ((len : Int) + i).toNat else min i.toNat len

/-- JavaScript `Array.prototype.slice xs [a, b)`. -/
def jsSlice (xs : List BValue) (a b : Int) : List BValue :=
  (xs.take (jsSliceIdx xs.length b)).drop (jsSliceIdx xs.length a)

/-- Options passed to the driver `find` (projection and sort travel opaquely
from the argument bag). -/
structure FindOpts where
  projection : JValue
  limit : Int
  skip : Int
  sort : JValue

/-- Options passed to the driver `insertMany`. -/
structure InsertOpts where
  ordered : Bool
  writeConcern : JValue
  bypassDocumentValidation : JValue

/-- Driver result of `updateOne`/`updateMany`. -/
structure UpdateResult where
  matchedCount : Int
  modifiedCount : Int
  upsertedCount : Int
  upsertedId : BValue

/-- Driver outcome of `insertMany`: success, a `BulkWriteError` (caught and
reported specially), or any other error (re-raised wrapped). -/
inductive InsertOutcome where
  | ok (acknowledged : Bool) (insertedCount : Int) (insertedIds : List (String × BValue))
  | bulkError (writeErrors : List BValue) (nInserted : Option Int) (nFailedInserts : Option Int)
  | otherError (msg : String)

/-- The external data-store gateway, modelled as a total oracle: each field
gives the value the driver call resolves with. -/
structure Gateway where
  countDocuments : String → List (String × BValue) → Int
  countDocumentsWithOptions : String → List (String × BValue) → List (String × JValue) → Int
  find : String → List (String × BValue) → FindOpts → List BValue
  findExplain : String → List (String × BValue) → FindOpts → JValue → BValue
  aggregate : String → List BValue → List BValue
  aggregateExplain : String → List BValue → JValue → List BValue
  updateOne : String → List (String × BValue) → BValue → Bool → UpdateResult
  updateMany : String → List (String × BValue) → BValue → Bool → UpdateResult
  insertMany : String → List BValue → InsertOpts → InsertOutcome
  createIndexes : String → List BValue → Option Int → List (String × BValue)
  command : List (String × JValue) → List (String × BValue)
  listCollections : Option BValue → List BValue

/-- Record of one gateway call, for tracing when the data store is reached. -/
inductive GCall where
  | countDocuments (coll : String) (filter : List (String × BValue))
  | countDocumentsWithOptions (coll : String) (filter : List (String × BValue))
      (opts : List (String × JValue))
  | find (coll : String) (filter : List (String × BValue)) (opts : FindOpts)
  | findExplain (coll : String) (filter : List (String × BValue)) (opts : FindOpts)
      (verbosity : JValue)
  | aggregate (coll : String) (pipeline : List BValue)
  | aggregateExplain (coll : String) (pipeline : List BValue) (verbosity : JValue)
  | updateOne (coll : String) (filter : List (String × BValue)) (upd : BValue) (upsert : Bool)
  | updateMany (coll : String) (filter : List (String × BValue)) (upd : BValue) (upsert : Bool)
  | insertMany (coll : String) (docs : List BValue) (opts : InsertOpts)
  | createIndexes (coll : String) (indexes : List BValue) (commitQuorum : Option Int)
  | command (doc : List (String × JValue))
  | listCollections (opts : Option BValue)

/-- A handler outcome: the success payload or the raised error message,
together with the trace of gateway calls issued. -/
abbrev HResult := Except String BValue × List GCall

/-- Source `handleQuery`. -/
def handleQuery (gw : Gateway) (collection : Option String) (args : Args)
    (objectIdMode : OidMode) : HResult :=
  match collection with
  | Option.none => (.error "Collection is required for query operation", [])
  | some coll =>
    let limit := numericOr (lookupArg args "limit") 10
    let skip := numericOr (lookupArg args "skip") 0
    match parseFilter (jsGet args "filter") objectIdMode with
    | .error e => (.error e, [])
    | .ok queryFilter =>
      let opts : FindOpts := ⟨jsGet args "projection", limit, skip, jsGet args "sort"⟩
      if truthy (jsGet args "explain") then
        (.ok (gw.findExplain coll queryFilter opts (jsGet args "explain")),
         [GCall.findExplain coll queryFilter opts (jsGet args "explain")])
      else
        let total := gw.countDocuments coll queryFilter
        let results := gw.find coll queryFilter opts
        (.ok (.obj [("results", .arr results),
           ("metadata", .obj [("total", .num total),
             ("returned", .num results.length),
             ("skip", .num skip), ("limit", .num limit),
             ("hasMore", .bool (decide (skip + results.length < total)))])]),
         [GCall.countDocuments coll queryFilter, GCall.find coll queryFilter opts])

/-- Source `handleAggregate`. -/
def handleAggregate (gw : Gateway) (collection : Option String) (args : Args)
    (objectIdMode : OidMode) : HResult :=
  match collection with
  | Option.none => (.error "Collection is required for aggregate operation", [])
  | some coll =>
    match jsGet args "pipeline" with
    | .arr stages =>
        let processedPipeline := stages.map fun stage =>
          match stage with
          | .obj kvs => BValue.obj (processObjectIdInFilter objectIdMode kvs)
          | .arr xs => BValue.obj (processObjectIdInFilter objectIdMode (arrayEntries xs))
          | s => toB s
        if truthy (jsGet args "explain") then
          (.ok (.arr (gw.aggregateExplain coll processedPipeline (jsGet args "explain"))),
           [GCall.aggregateExplain coll processedPipeline (jsGet args "explain")])
        else
          let results := gw.aggregate coll processedPipeline
          (.ok (.obj [("results", .arr results),
             ("metadata", .obj [("returned", .num results.length)])]),
           [GCall.aggregate coll processedPipeline])
    | _ => (.error "Pipeline must be an array", [])

/-- The fixed operator whitelist of `handleUpdate`. -/
def validUpdateOperators : List String :=
  ["$set", "$unset", "$inc", "$push", "$pull", "$addToSet", "$pop", "$rename", "$mul"]

/-- Source `handleUpdate`. -/
def handleUpdate (gw : Gateway) (collection : Option String) (args : Args)
    (objectIdMode : OidMode) : HResult :=
  match collection with
  | Option.none => (.error "Collection is required for update operation", [])
  | some coll =>
    match parseFilter (jsGet args "filter") objectIdMode with
    | .error e => (.error e, [])
    | .ok queryFilter =>
      let processedUpdate : BValue :=
        match jsGet args "update" with
        | .obj kvs => .obj (processObjectIdInFilter objectIdMode kvs)
        | v => toB v
      match processedUpdate with
      | .obj ukvs =>
          if ukvs.any (fun kv => validUpdateOperators.contains kv.1) then
            let upsert := truthy (jsGet args "upsert")
            let multi := truthy (jsGet args "multi")
            let result :=
              if multi then gw.updateMany coll queryFilter (.obj ukvs) upsert
              else gw.updateOne coll queryFilter (.obj ukvs) upsert
            (.ok (.obj [("matchedCount", .num result.matchedCount),
               ("modifiedCount", .num result.modifiedCount),
               ("upsertedCount", .num result.upsertedCount),
               ("upsertedId", result.upsertedId)]),
             [if multi then GCall.updateMany coll queryFilter (.obj ukvs) upsert
              else GCall.updateOne coll queryFilter (.obj ukvs) upsert])
          else
            (.error "Update must include at least one valid update operator ($set, $unset, etc.)", [])
      | _ => (.error "Update must be a valid MongoDB update document", [])

/-- Status block `handleServerInfo` assembles when debug info is requested. -/
def statusPayload (ss : List (String × BValue)) : BValue :=
  .obj [("host", bGet ss "host"), ("version", bGet ss "version"),
    ("process", bGet ss "process"), ("pid", bGet ss "pid"),
    ("uptime", bGet ss "uptime"), ("uptimeMillis", bGet ss "uptimeMillis"),
    ("uptimeEstimate", bGet ss "uptimeEstimate"), ("localTime", bGet ss "localTime"),
    ("connections", bGet ss "connections"), ("network", bGet ss "network"),
    ("memory", bGet ss "mem"), ("storageEngine", bGet ss "storageEngine"),
    ("security", bGet ss "security")]

/-- Response `handleServerInfo` assembles from the buildInfo document. -/
def serverInfoPayload (bi : List (String × BValue)) (status : BValue)
    (isReadOnlyMode : Bool) : BValue :=
  .obj [("version", bGet bi "version"), ("gitVersion", bGet bi "gitVersion"),
    ("modules", bGet bi "modules"), ("allocator", bGet bi "allocator"),
    ("javascriptEngine", bGet bi "javascriptEngine"), ("sysInfo", bGet bi "sysInfo"),
    ("storageEngines", bGet bi "storageEngines"), ("debug", bGet bi "debug"),
    ("maxBsonObjectSize", bGet bi "maxBsonObjectSize"), ("openssl", bGet bi "openssl"),
    ("buildEnvironment", bGet bi "buildEnvironment"), ("bits", bGet bi "bits"),
    ("ok", bGet bi "ok"), ("status", status),
    ("connectionInfo", .obj [("readOnlyMode", .bool isReadOnlyMode),
      ("readPreference", .str (if isReadOnlyMode then "secondary" else "primary"))])]

/-- Source `handleServerInfo`. -/
def handleServerInfo (gw : Gateway) (isReadOnlyMode : Bool) (args : Args) : HResult :=
  let buildInfo := gw.command [("buildInfo", .num 1)]
  if truthy (jsGet args "includeDebugInfo") then
    let serverStatus := gw.command [("serverStatus", .num 1)]
    (.ok (serverInfoPayload buildInfo (statusPayload serverStatus) isReadOnlyMode),
     [GCall.command [("buildInfo", .num 1)], GCall.command [("serverStatus", .num 1)]])
  else
    (.ok (serverInfoPayload buildInfo (.obj []) isReadOnlyMode),
     [GCall.command [("buildInfo", .num 1)]])

/-- Source `handleInsert`. -/
def handleInsert (gw : Gateway) (collection : Option String) (args : Args)
    (objectIdMode : OidMode) : HResult :=
  match collection with
  | Option.none => (.error "Collection is required for insert operation", [])
  | some coll =>
    match jsGet args "documents" with
    | .arr documents =>
        if documents.length = 0 then (.error "Documents array cannot be empty", [])
        else if documents.all (fun doc => match doc with | .obj _ => true | _ => false) then
          let processedDocuments := documents.map fun doc =>
            match doc with
            | .obj kvs => BValue.obj (processObjectIdInFilter objectIdMode kvs)
            | d => toB d
          let opts : InsertOpts :=
            ⟨(match lookupArg args "ordered" with | some (.bool false) => false | _ => true),
             jsGet args "writeConcern", jsGet args "bypassDocumentValidation"⟩
          match gw.insertMany coll processedDocuments opts with
          | .ok ack cnt ids =>
              (.ok (.obj [("acknowledged", .bool ack), ("insertedCount", .num cnt),
                 ("insertedIds", .obj ids)]),
               [GCall.insertMany coll processedDocuments opts])
          | .bulkError writeErrors nInserted nFailedInserts =>
              (.ok (.obj [("error", .str "Bulk write error occurred"),
                 ("writeErrors", .arr writeErrors),
                 ("insertedCount", .num (nInserted.getD 0)),
                 ("failedCount", .num (nFailedInserts.getD 0))]),
               [GCall.insertMany coll processedDocuments opts])
          | .otherError msg =>
              (.error ("Failed to insert collection " ++ coll ++ ": " ++ msg),
               [GCall.insertMany coll processedDocuments opts])
        else (.error "Each document must be a valid MongoDB document object", [])
    | _ => (.error "Documents must be an array", [])

/-- Source `handleCreateIndex`. -/
def handleCreateIndex (gw : Gateway) (collection : Option String) (args : Args)
    (objectIdMode : OidMode) : HResult :=
  match collection with
  | Option.none => (.error "Collection is required for createIndex operation", [])
  | some coll =>
    match jsGet args "indexes" with
    | .arr indexes =>
        if indexes.length = 0 then (.error "Indexes must be a non-empty array", [])
        else
          let writeConcern := jsGet args "writeConcern"
          if truthy writeConcern
              && (match writeConcern with | .obj _ => false | _ => true) then
            (.error "Write concern must be a valid MongoDB write concern object", [])
          else
            let commitQuorum := jsGet args "commitQuorum"
            if truthy commitQuorum
                && (match commitQuorum with | .str _ => false | .num _ => false | _ => true) then
              (.error "Commit quorum must be a string or number", [])
            else
              let processedIndexes := indexes.map fun index =>
                match index with
                | .obj kvs => BValue.obj (processObjectIdInFilter objectIdMode kvs)
                | .arr xs => BValue.obj (processObjectIdInFilter objectIdMode (arrayEntries xs))
                | v => toB v
              let commitQuorumOpt : Option Int :=
                match commitQuorum with | .num n => some n | _ => Option.none
              let result := gw.createIndexes coll processedIndexes commitQuorumOpt
              (.ok (.obj [("acknowledged", bGet result "acknowledged"),
                 ("createdIndexes", bGet result "createdIndexes"),
                 ("numIndexesBefore", bGet result "numIndexesBefore"),
                 ("numIndexesAfter", bGet result "numIndexesAfter")]),
               [GCall.createIndexes coll processedIndexes commitQuorumOpt])
    | _ => (.error "Indexes must be a non-empty array", [])

/-- Option entries `handleCount` builds (undefined-valued options removed, in
the field order of the source literal). -/
def countOptEntries (args : Args) : List (String × JValue) :=
  (match lookupArg args "limit" with | some (.num n) => [("limit", JValue.num n)] | _ => [])
  ++ (match lookupArg args "skip" with | some (.num n) => [("skip", JValue.num n)] | _ => [])
  ++ (match lookupArg args "hint" with
      | some (.obj kvs) => [("hint", JValue.obj kvs)]
      | some (.arr xs) => [("hint", JValue.arr xs)]
      | _ => [])
  ++ (match lookupArg args "readConcern" with
      | some (.obj kvs) => [("readConcern", JValue.obj kvs)]
      | some (.arr xs) => [("readConcern", JValue.arr xs)]
      | _ => [])
  ++ (match lookupArg args "maxTimeMS" with | some (.num n) => [("maxTimeMS", JValue.num n)] | _ => [])
  ++ (match lookupArg args "collation" with
      | some (.obj kvs) => [("collation", JValue.obj kvs)]
      | some (.arr xs) => [("collation", JValue.arr xs)]
      | _ => [])

/-- Source `handleCount`. -/
def handleCount (gw : Gateway) (collection : Option String) (args : Args)
    (objectIdMode : OidMode) : HResult :=
  match collection with
  | Option.none => (.error "Collection is required for count operation", [])
  | some coll =>
    match parseFilter (jsGet args "query") objectIdMode with
    | .error e => (.error e, [])
    | .ok countQuery =>
        let options := countOptEntries args
        (.ok (.obj [("count", .num (gw.countDocumentsWithOptions coll countQuery options)),
           ("ok", .num 1)]),
         [GCall.countDocumentsWithOptions coll countQuery options])

/-- Source `handleListCollections`. -/
def handleListCollections (gw : Gateway) (args : Args) (objectIdMode : OidMode) : HResult :=
  let skip := numericOr (lookupArg args "skip") 0
  let limit := numericOr (lookupArg args "limit") 20
  let processedFilter : BValue :=
    match jsGet args "filter" with
    | .obj kvs => .obj (processObjectIdInFilter objectIdMode kvs)
    | .arr xs => .obj (processObjectIdInFilter objectIdMode (arrayEntries xs))
    | v => toB v
  let options : Option BValue := if truthyB processedFilter then some processedFilter else Option.none
  let collections := gw.listCollections options
  let allResults :=
    if truthy (jsGet args "nameOnly") then collections.map (fun c => bField c "name")
    else collections
  let total : Int := allResults.length
  let paged := jsSlice allResults skip (skip + limit)
  (.ok (.obj [("results", .arr paged),
     ("metadata", .obj [("total", .num total), ("returned", .num paged.length),
       ("skip", .num skip), ("limit", .num limit),
       ("hasMore", .bool (decide (skip + paged.length < total)))])]),
   [GCall.listCollections options])

/-- Operations that require a collection. -/
def COLLECTION_OPERATIONS : List String :=
  ["query", "aggregate", "update", "insert", "createIndex", "count"]

/-- Write operations blocked in read-only mode. -/
def WRITE_OPERATIONS : List String :=
  ["update", "insert", "createIndex"]

/-- Source `validateOperation` (true when the operation name is known). -/
def validateOperation (operation : String) : Bool :=
  ["query", "aggregate", "update", "serverInfo", "insert", "createIndex", "count",
    "listCollections"].contains operation

/-- Source `checkReadOnlyMode` (true when the request must be rejected). -/
def checkReadOnlyMode (operation : String) (isReadOnlyMode : Bool) : Bool :=
  isReadOnlyMode && WRITE_OPERATIONS.contains operation

/-- Source `validateCollection`, returning the raised message if any. -/
def validateCollection (collectionName : String) : Option String :=
  if collectionName = "" then some "Collection name cannot be empty"
  else if strStartsWith collectionName "system." then
    some "Access to system collections is not allowed"
  else Option.none

/-- The argument-bag rewriting the dispatcher performs before dispatching:
`filteredArgs` is built from the original entries, the sort is replaced by its
parsed form, and then `Object.assign(args, filteredArgs)` merges the original
entries back over the result. -/
def effectiveArgs (args : Args) : Args :=
  let filteredArgs := args.filter fun kv => kv.1 != "objectIdMode"
  let args1 :=
    if truthy (jsGet args "sort") then jsSet args "sort" (parseSort (jsGet args "sort"))
    else args
  objectAssign args1 filteredArgs

/-- Extraction of the ObjectId conversion mode:
`(args.objectIdMode as ObjectIdConversionMode) || "auto"`. -/
def getObjectIdMode (args : Args) : OidMode :=
  match jsGet args "objectIdMode" with
  | .str s =>
      if s = "" then OidMode.auto
      else if s = "auto" then OidMode.auto
      else if s = "none" then OidMode.none
      else if s = "force" then OidMode.force
      else OidMode.other
  | v => if truthy v then OidMode.other else OidMode.auto

/-- Collection name resolution from the `collection` argument (the requests in
scope carry string collection names). -/
def collectionNameOf : JValue → String
  | .str s => s
  | _ => ""

/-- An incoming tool request: operation name and argument bag. -/
structure ToolRequest where
  name : String
  args : Args

/-- The switch at the end of `handleCallToolRequest`. -/
def dispatchOp (gw : Gateway) (name : String) (collection : Option String)
    (args : Args) (objectIdMode : OidMode) (isReadOnlyMode : Bool) : HResult :=
  if name = "query" then handleQuery gw collection args objectIdMode
  else if name = "aggregate" then handleAggregate gw collection args objectIdMode
  else if name = "update" then handleUpdate gw collection args objectIdMode
  else if name = "serverInfo" then handleServerInfo gw isReadOnlyMode args
  else if name = "insert" then handleInsert gw collection args objectIdMode
  else if name = "createIndex" then handleCreateIndex gw collection args objectIdMode
  else if name = "count" then handleCount gw collection args objectIdMode
  else if name = "listCollections" then handleListCollections gw args objectIdMode
  else (.error ("Unknown operation: " ++ name), [])

/-- Source `handleCallToolRequest`: mode extraction, the filtered-args/sort
rewriting, operation whitelist, read-only policy, collection resolution and
validation, then dispatch. -/
def handleCallToolRequest (gw : Gateway) (req : ToolRequest) (isReadOnlyMode : Bool) : HResult :=
  let objectIdMode := getObjectIdMode req.args
  let args := effectiveArgs req.args
  if validateOperation req.name = false then
    (.error ("Unknown operation: " ++ req.name), [])
  else if checkReadOnlyMode req.name isReadOnlyMode then
    (.error ("ReadonlyError: Operation '" ++ req.name ++ "' is not allowed in read-only mode"), [])
  else if COLLECTION_OPERATIONS.contains req.name then
    if truthy (jsGet args "collection") = false then
      (.error ("Collection name is required for '" ++ req.name ++ "' operation"), [])
    else
      let collName := collectionNameOf (jsGet args "collection")
      match validateCollection collName with
      | some e => (.error e, [])
      | Option.none => dispatchOp gw req.name (some collName) args objectIdMode isReadOnlyMode
  else dispatchOp gw req.name Option.none args objectIdMode isReadOnlyMode


/-! ## C3: shapes and the spec-side processor -/

/-- Structural shape of a JSON-like tree: keys, array lengths and nesting,
with every scalar collapsed. -/
inductive JShape where
  | scalar : JShape
  | arr : List JShape → JShape
  | obj : List (String × JShape) → JShape

mutual
/-- Shape of a JSON value. -/
def shapeJ : JValue → JShape
  | .arr xs => .arr (shapeJList xs)
  | .obj kvs => .obj (shapeJEntries kvs)
  | _ => .scalar

/-- Shapes of a list of JSON values. -/
def shapeJList : List JValue → List JShape
  | [] => []
  | v :: vs => shapeJ v :: shapeJList vs

/-- Shapes of JSON object entries. -/
def shapeJEntries : List (String × JValue) → List (String × JShape)
  | [] => []
  | (k, v) :: kvs => (k, shapeJ v) :: shapeJEntries kvs
end

mutual
/-- Shape of a BSON-like value (ObjectIds and Dates are scalars). -/
def shapeB : BValue → JShape
  | .arr xs => .arr (shapeBList xs)
  | .obj kvs => .obj (shapeBEntries kvs)
  | _ => .scalar

/-- Shapes of a list of BSON-like values. -/
def shapeBList : List BValue → List JShape
  | [] => []
  | v :: vs => shapeB v :: shapeBList vs

/-- Shapes of BSON-like object entries. -/
def shapeBEntries : List (String × BValue) → List (String × JShape)
  | [] => []
  | (k, v) :: kvs => (k, shapeB v) :: shapeBEntries kvs
end

/-- The Value Normalizer of the specification (section 4.1): the identifier
decision table is consulted first, then the plain ISO date test, then the
`ISODate(...)` wrapper test (with the extraction the source actually
performs). -/
def normalizeValue (mode : OidMode) (fieldName : String) (s : String) : BValue :=
  if isObjectIdString s
      ∧ (mode = OidMode.force ∨ (mode = OidMode.auto ∧ isObjectIdField fieldName = true)) then
    .oid s
  else if isISODateString s then .date s
  else if strStartsWith s "ISODate(" && strEndsWith s ")" then
    let dateString := isodateInner s
    if isISODateString dateString then .date dateString else .str s
  else .str s

/-- Spec-side conversion of one array element: scalar string leaves pass
through the Value Normalizer with the parent key, everything else unchanged. -/
def specItem (mode : OidMode) (key : String) : JValue → BValue
  | .str s => normalizeValue mode key s
  | v => toB v

mutual
/-- The Filter/Document Processor as the specification words it (amended):
every string leaf at an object value passes through the Value Normalizer,
nested objects are recursed into, array elements are normalized individually
with the parent key, and array elements that are themselves containers are
kept unchanged. -/
def processorSpec (mode : OidMode) : List (String × JValue) → List (String × BValue)
  | [] => []
  | (k, v) :: rest => (k, processorSpecValue mode k v) :: processorSpec mode rest

/-- Spec-side conversion of one object entry value. -/
def processorSpecValue (mode : OidMode) (key : String) : JValue → BValue
  | .str s => normalizeValue mode key s
  | .arr xs => .arr (xs.map (specItem mode key))
  | .obj kvs => .obj (processorSpec mode kvs)
  | .null => .null
  | .bool b => .bool b
  | .num n => .num n
end

/-! ## Concrete gateways for witnesses -/

/-- A concrete gateway oracle: 12 matching documents on any count, 2 found
documents on any find, 3 collections listed. -/
def gw0 : Gateway :=
  ⟨fun _ _ => 12,
   fun _ _ _ => 12,
   fun _ _ _ => [BValue.obj [("x", BValue.num 1)], BValue.obj [("x", BValue.num 2)]],
   fun _ _ _ _ => BValue.obj [],
   fun _ _ => [],
   fun _ _ _ => [],
   fun _ _ _ _ => ⟨1, 1, 0, BValue.null⟩,
   fun _ _ _ _ => ⟨1, 1, 0, BValue.null⟩,
   fun _ _ _ => InsertOutcome.ok true 1 [("0", BValue.oid "507f1f77bcf86cd799439011")],
   fun _ _ _ => [],
   fun _ => [],
   fun _ => [BValue.obj [("name", BValue.str "c1")], BValue.obj [("name", BValue.str "c2")],
     BValue.obj [("name", BValue.str "c3")]]⟩

/-- A gateway whose `insertMany` raises a `BulkWriteError` with one write
error, 1 inserted and 2 failed documents. -/
def gwBulk : Gateway :=
  { gw0 with insertMany := fun _ _ _ =>
      InsertOutcome.bulkError [BValue.obj [("index", BValue.num 1)]] (some 1) (some 2) }

/-! ## Helper lemmas -/

theorem consumeDigits_eq_drop {n : Nat} {cs r : List Char}
    (h : consumeDigits n cs = some r) : r = cs.drop n := by
  induction n generalizing cs with
  | zero =>
      simp only [consumeDigits, Option.some.injEq] at h
      simpa using h.symm
  | succ n ih =>
      cases cs with
      | nil => simp [consumeDigits] at h
      | cons c cs =>
          simp only [consumeDigits] at h
          split at h
          · simpa using ih h
          · exact absurd h (by simp)

theorem isObjectIdString_not_iso {s : String} (h : isObjectIdString s = true) :
    isISODateString s = false := by
  unfold isObjectIdString at h
  rw [Bool.and_eq_true] at h
  obtain ⟨-, hall⟩ := h
  cases hiso : isISODateString s with
  | false => rfl
  | true =>
      exfalso
      unfold isISODateString at hiso
      rcases h1 : consumeDigits 4 s.data with - | r1
      · simp [h1] at hiso
      · rcases hr1 : r1 with - | ⟨c, r2⟩
        · simp [h1, hr1, consumeChar] at hiso
        · by_cases hc : c = '-'
          · have hmem : '-' ∈ s.data := by
              have hdrop := consumeDigits_eq_drop h1
              rw [hr1, hc] at hdrop
              exact List.mem_of_mem_drop (hdrop ▸ List.mem_cons_self '-' r2)
            have := List.all_eq_true.mp hall '-' hmem
            simp [isHexChar] at this
          · simp [h1, hr1, consumeChar, hc] at hiso

theorem isObjectIdString_not_wrapper {s : String} (h : isObjectIdString s = true) :
    strStartsWith s "ISODate(" = false := by
  unfold isObjectIdString at h
  rw [Bool.and_eq_true] at h
  obtain ⟨-, hall⟩ := h
  have hpd : "ISODate(".data = ['I', 'S', 'O', 'D', 'a', 't', 'e', '('] := rfl
  cases hsw : strStartsWith s "ISODate(" with
  | false => rfl
  | true =>
      exfalso
      unfold strStartsWith at hsw
      rw [hpd] at hsw
      cases hd : s.data with
      | nil => rw [hd] at hsw; simp [List.isPrefixOf] at hsw
      | cons c cs =>
          rw [hd] at hsw
          simp only [List.isPrefixOf, Bool.and_eq_true, beq_iff_eq] at hsw
          have hcI : c = 'I' := hsw.1.symm
          have hmem : c ∈ s.data := by rw [hd]; exact List.mem_cons_self c cs
          have := List.all_eq_true.mp hall c hmem
          rw [hcI] at this
          simp [isHexChar] at this

/-! ## C1 -/

/-- C1 (code bug evidence): the spec says every mode converts the wrapper
`ISODate("2023-01-01T00:00:00Z")` to the same date value as the plain string
`2023-01-01T00:00:00Z`, and the source's own comment announces handling of
exactly that format; but `value.substring(8, value.length - 2)` keeps the
opening quote of the inner literal, so the ISO test fails and the wrapper is
returned unchanged in every mode, while the plain string does convert. -/
theorem isodate_wrapper_never_converted :
    processObjectIdInFilter OidMode.auto
        [("createdAt", JValue.str "ISODate(\"2023-01-01T00:00:00Z\")")]
      = [("createdAt", BValue.str "ISODate(\"2023-01-01T00:00:00Z\")")]
    ∧ processObjectIdInFilter OidMode.none
        [("createdAt", JValue.str "ISODate(\"2023-01-01T00:00:00Z\")")]
      = [("createdAt", BValue.str "ISODate(\"2023-01-01T00:00:00Z\")")]
    ∧ processObjectIdInFilter OidMode.force
        [("createdAt", JValue.str "ISODate(\"2023-01-01T00:00:00Z\")")]
      = [("createdAt", BValue.str "ISODate(\"2023-01-01T00:00:00Z\")")]
    ∧ processObjectIdInFilter OidMode.auto
        [("createdAt", JValue.str "2023-01-01T00:00:00Z")]
      = [("createdAt", BValue.date "2023-01-01T00:00:00Z")]
    ∧ processObjectIdInFilter OidMode.none
        [("createdAt", JValue.str "2023-01-01T00:00:00Z")]
      = [("createdAt", BValue.date "2023-01-01T00:00:00Z")]
    ∧ processObjectIdInFilter OidMode.force
        [("createdAt", JValue.str "2023-01-01T00:00:00Z")]
      = [("createdAt", BValue.date "2023-01-01T00:00:00Z")]
    ∧ isodateInner "ISODate(\"2023-01-01T00:00:00Z\")" = "\"2023-01-01T00:00:00Z"
    ∧ BValue.str "ISODate(\"2023-01-01T00:00:00Z\")" ≠ BValue.date "2023-01-01T00:00:00Z" :=
  ⟨rfl, rfl, rfl, rfl, rfl, rfl, rfl, fun h => BValue.noConfusion h⟩

/-! ## C2 -/

/-- C2: a 24-hex-character string value is converted to an ObjectId exactly
when the mode is `force`, or the mode is `auto` and the field name matches the
ObjectId-field heuristic; otherwise (mode `none`, mode `auto` with a
non-matching name, or an unrecognized mode) it stays a string. -/
theorem objectIdString_conversion (mode : OidMode) (key s : String)
    (h : isObjectIdString s = true) :
    processObjectIdInFilter mode [(key, JValue.str s)] =
      if mode = OidMode.force ∨ (mode = OidMode.auto ∧ isObjectIdField key = true)
      then [(key, BValue.oid s)] else [(key, BValue.str s)] := by
  have hiso := isObjectIdString_not_iso h
  have hwrap := isObjectIdString_not_wrapper h
  cases mode with
  | none =>
      simp only [processObjectIdInFilter, procValue, if_pos rfl, noneStringConv,
        hiso, hwrap, Bool.false_and, if_neg]
      simp
  | auto =>
      by_cases hf : isObjectIdField key = true
      · simp [processObjectIdInFilter, procValue, mainStringConv, h, hf]
      · simp [processObjectIdInFilter, procValue, mainStringConv, h, hf]
  | force =>
      simp [processObjectIdInFilter, procValue, mainStringConv, h]
  | other =>
      simp [processObjectIdInFilter, procValue, mainStringConv, h]

/-- C2 witness: `auto` mode converts a 24-hex string under the field `_id`. -/
theorem objectIdString_conversion_witness :
    processObjectIdInFilter OidMode.auto [("_id", JValue.str "507f1f77bcf86cd799439011")] =
      if OidMode.auto = OidMode.force
          ∨ (OidMode.auto = OidMode.auto ∧ isObjectIdField "_id" = true)
      then [("_id", BValue.oid "507f1f77bcf86cd799439011")]
      else [("_id", BValue.str "507f1f77bcf86cd799439011")] :=
  objectIdString_conversion OidMode.auto "_id" "507f1f77bcf86cd799439011" (by decide)

/-! ## C3 theorems -/

theorem noneStringConv_eq_normalize (key s : String) :
    noneStringConv s = normalizeValue OidMode.none key s := by
  unfold noneStringConv normalizeValue
  cases h : isObjectIdString s <;> simp [h]

theorem mainItemStringConv_eq_normalize (mode : OidMode) (key s : String) :
    mainItemStringConv mode key s = normalizeValue mode key s := rfl

theorem mainStringConv_eq_normalize (mode : OidMode) (key s : String) :
    mainStringConv mode key s = normalizeValue mode key s := by
  unfold mainStringConv normalizeValue
  cases h : isObjectIdString s with
  | false => simp [h]
  | true =>
      have hiso := isObjectIdString_not_iso (s := s) h
      have hwrap := isObjectIdString_not_wrapper (s := s) h
      by_cases hc : mode = OidMode.force ∨ (mode = OidMode.auto ∧ isObjectIdField key = true)
      · simp [h, hc]
      · simp [h, hc, hiso, hwrap]

theorem itemConv_eq_spec (mode : OidMode) (key : String) (v : JValue) :
    itemConv mode key v = specItem mode key v := by
  cases v with
  | str s =>
      by_cases hm : mode = OidMode.none
      · simp [itemConv, specItem, hm, noneStringConv_eq_normalize key s]
      · simp [itemConv, specItem, hm, mainItemStringConv_eq_normalize]
  | null => rfl
  | bool b => rfl
  | num n => rfl
  | arr xs => rfl
  | obj kvs => rfl

theorem procArray_eq_map (mode : OidMode) (key : String) :
    ∀ xs, procArray mode key xs = xs.map (specItem mode key)
  | [] => rfl
  | x :: xs => by
      rw [procArray, List.map_cons, itemConv_eq_spec, procArray_eq_map mode key xs]

mutual
theorem processObjectIdInFilter_eq_spec (mode : OidMode) :
    ∀ kvs, processObjectIdInFilter mode kvs = processorSpec mode kvs
  | [] => rfl
  | (k, v) :: rest => by
      rw [processObjectIdInFilter, processorSpec, procValue_eq_spec mode k v,
        processObjectIdInFilter_eq_spec mode rest]

theorem procValue_eq_spec (mode : OidMode) (key : String) :
    ∀ v, procValue mode key v = processorSpecValue mode key v
  | .null => rfl
  | .bool b => rfl
  | .num n => rfl
  | .str s => by
      by_cases hm : mode = OidMode.none
      · rw [procValue, processorSpecValue, if_pos hm, hm, noneStringConv_eq_normalize key s]
      · rw [procValue, processorSpecValue, if_neg hm, mainStringConv_eq_normalize]
  | .arr xs => by rw [procValue, processorSpecValue, procArray_eq_map]
  | .obj kvs => by
      rw [procValue, processorSpecValue, processObjectIdInFilter_eq_spec mode kvs]
end

theorem shapeB_normalizeValue (mode : OidMode) (key s : String) :
    shapeB (normalizeValue mode key s) = JShape.scalar := by
  unfold normalizeValue
  split
  · rfl
  split
  · rfl
  split
  · dsimp only
    split <;> rfl
  · rfl

mutual
theorem shapeB_toB : ∀ v, shapeB (toB v) = shapeJ v
  | .null => rfl
  | .bool b => rfl
  | .num n => rfl
  | .str s => rfl
  | .arr xs => by rw [toB, shapeB, shapeJ, shapeB_toBList xs]
  | .obj kvs => by rw [toB, shapeB, shapeJ, shapeB_toBEntries kvs]

theorem shapeB_toBList : ∀ xs, shapeBList (toBList xs) = shapeJList xs
  | [] => rfl
  | v :: vs => by rw [toBList, shapeBList, shapeJList, shapeB_toB v, shapeB_toBList vs]

theorem shapeB_toBEntries : ∀ kvs, shapeBEntries (toBEntries kvs) = shapeJEntries kvs
  | [] => rfl
  | (k, v) :: kvs => by
      rw [toBEntries, shapeBEntries, shapeJEntries, shapeB_toB v, shapeB_toBEntries kvs]
end

theorem shapeB_specItem (mode : OidMode) (key : String) (v : JValue) :
    shapeB (specItem mode key v) = shapeJ v := by
  cases v with
  | str s => rw [specItem, shapeB_normalizeValue]; rfl
  | null => rfl
  | bool b => rfl
  | num n => rfl
  | arr xs => exact shapeB_toB (.arr xs)
  | obj kvs => exact shapeB_toB (.obj kvs)

theorem shapeB_specItem_map (mode : OidMode) (key : String) :
    ∀ xs, shapeBList (xs.map (specItem mode key)) = shapeJList xs
  | [] => rfl
  | x :: xs => by
      rw [List.map_cons, shapeBList, shapeJList, shapeB_specItem, shapeB_specItem_map mode key xs]

mutual
theorem processorSpec_shape (mode : OidMode) :
    ∀ kvs, shapeBEntries (processorSpec mode kvs) = shapeJEntries kvs
  | [] => rfl
  | (k, v) :: rest => by
      rw [processorSpec, shapeBEntries, shapeJEntries, processorSpecValue_shape mode k v,
        processorSpec_shape mode rest]

theorem processorSpecValue_shape (mode : OidMode) (key : String) :
    ∀ v, shapeB (processorSpecValue mode key v) = shapeJ v
  | .null => rfl
  | .bool b => rfl
  | .num n => rfl
  | .str s => by rw [processorSpecValue, shapeB_normalizeValue]; rfl
  | .arr xs => by rw [processorSpecValue, shapeB, shapeJ, shapeB_specItem_map]
  | .obj kvs => by rw [processorSpecValue, shapeB, shapeJ, processorSpec_shape mode kvs]
end

/-- C3 counterexample: in `force` mode (which converts every 24-hex string)
a string leaf inside an object nested within an array is NOT passed through
the Value Normalizer — the object item is returned unchanged — contradicting
the claim that leaves inside objects nested within arrays are normalized. -/
theorem nested_in_array_not_normalized :
    processObjectIdInFilter OidMode.force
        [("items", JValue.arr [JValue.obj [("ref", JValue.str "507f1f77bcf86cd799439011")]])]
      = [("items", BValue.arr [BValue.obj [("ref", BValue.str "507f1f77bcf86cd799439011")]])]
    ∧ normalizeValue OidMode.force "ref" "507f1f77bcf86cd799439011"
      = BValue.oid "507f1f77bcf86cd799439011"
    ∧ BValue.str "507f1f77bcf86cd799439011" ≠ BValue.oid "507f1f77bcf86cd799439011" :=
  ⟨rfl, rfl, fun h => BValue.noConfusion h⟩

/-- C3 (amended): for every mode and input tree the processor preserves the
tree shape (same keys, array lengths, nesting) and equals the spec-side
processor in which every string leaf at an object value or direct array
element passes through the Value Normalizer (array elements with the parent
key), while array elements that are containers are returned unchanged without
recursion; the processor is a pure function of its input. -/
theorem processor_spec_and_shape (mode : OidMode) (kvs : List (String × JValue)) :
    processObjectIdInFilter mode kvs = processorSpec mode kvs
    ∧ shapeBEntries (processObjectIdInFilter mode kvs) = shapeJEntries kvs :=
  ⟨processObjectIdInFilter_eq_spec mode kvs, by
    rw [processObjectIdInFilter_eq_spec mode kvs]; exact processorSpec_shape mode kvs⟩

/-! ## Argument-bag lemmas -/

theorem lookupArg_eq_none : ∀ (args : Args) (k : String),
    k ∉ args.map Prod.fst → lookupArg args k = Option.none
  | [], _, _ => rfl
  | (k0, _) :: rest, k, h => by
      simp only [List.map_cons, List.mem_cons, not_or] at h
      rw [lookupArg, if_neg (fun he => h.1 he.symm), lookupArg_eq_none rest k h.2]

theorem lookupArg_of_nodup : ∀ (args : Args) (k : String) (v : JValue),
    (args.map Prod.fst).Nodup → (k, v) ∈ args → lookupArg args k = some v
  | [], k, v, _, hmem => absurd hmem (List.not_mem_nil (k, v))
  | (k0, v0) :: rest, k, v, hnd, hmem => by
      simp only [List.map_cons, List.nodup_cons] at hnd
      rcases List.mem_cons.mp hmem with he | hrest
      · cases he; rw [lookupArg, if_pos rfl]
      · have hk : k ∈ rest.map Prod.fst := List.mem_map.mpr ⟨(k, v), hrest, rfl⟩
        rw [lookupArg, if_neg (fun he => hnd.1 (by rw [he]; exact hk)),
          lookupArg_of_nodup rest k v hnd.2 hrest]

theorem lookupArg_mem_keys : ∀ {args : Args} {k : String} {v : JValue},
    lookupArg args k = some v → k ∈ args.map Prod.fst := by
  intro args
  induction args with
  | nil => intro k v h; exact absurd h (by simp [lookupArg])
  | cons kv rest ih =>
      intro k v h
      obtain ⟨k0, v0⟩ := kv
      rw [lookupArg] at h
      by_cases h0 : k0 = k
      · simp [h0]
      · rw [if_neg h0] at h
        simp [ih h]

theorem jsSet_lookup_self : ∀ (args : Args) (k : String) (v : JValue),
    lookupArg (jsSet args k v) k = some v
  | [], k, v => by rw [jsSet, lookupArg, if_pos rfl]
  | (k0, w) :: rest, k, v => by
      by_cases h : k0 = k
      · rw [jsSet, if_pos h, lookupArg, if_pos h]
      · rw [jsSet, if_neg h, lookupArg, if_neg h, jsSet_lookup_self rest k v]

theorem jsSet_lookup_other : ∀ (args : Args) (k : String) (v : JValue) (k' : String),
    k' ≠ k → lookupArg (jsSet args k v) k' = lookupArg args k'
  | [], k, v, k', h => by
      simp only [jsSet, lookupArg]
      rw [if_neg (fun he => h he.symm)]
  | (k0, w) :: rest, k, v, k', h => by
      by_cases h0 : k0 = k
      · have hne : ¬(k0 = k') := fun he => h (he.symm.trans h0)
        rw [jsSet, if_pos h0, lookupArg, if_neg hne, lookupArg, if_neg hne]
      · rw [jsSet, if_neg h0, lookupArg, lookupArg, jsSet_lookup_other rest k v k' h]

theorem jsSet_keys : ∀ (args : Args) (k : String) (v : JValue),
    k ∈ args.map Prod.fst → (jsSet args k v).map Prod.fst = args.map Prod.fst
  | [], k, v, h => absurd h (List.not_mem_nil k)
  | (k0, w) :: rest, k, v, h => by
      by_cases h0 : k0 = k
      · rw [jsSet, if_pos h0]; simp
      · have hk : k ∈ rest.map Prod.fst := by
          rcases List.mem_cons.mp h with he | hrest
          · exact absurd he.symm h0
          · exact hrest
        rw [jsSet, if_neg h0, List.map_cons, List.map_cons, jsSet_keys rest k v hk]

theorem objectAssign_cons (cur : Args) (k : String) (v : JValue) (l : Args) :
    objectAssign cur ((k, v) :: l) = objectAssign (jsSet cur k v) l := rfl

theorem objectAssign_keys : ∀ (l cur : Args),
    (∀ k, k ∈ l.map Prod.fst → k ∈ cur.map Prod.fst) →
    (objectAssign cur l).map Prod.fst = cur.map Prod.fst
  | [], cur, _ => rfl
  | (k0, v0) :: l, cur, h => by
      rw [objectAssign_cons]
      have hk0 : k0 ∈ cur.map Prod.fst := h k0 (by simp)
      have hkeys := jsSet_keys cur k0 v0 hk0
      rw [objectAssign_keys l (jsSet cur k0 v0)
        (fun k hk => by rw [hkeys]; exact h k (by simp [hk])), hkeys]

theorem objectAssign_lookup : ∀ (l cur : Args) (k : String),
    (l.map Prod.fst).Nodup →
    lookupArg (objectAssign cur l) k =
      (match lookupArg l k with
       | some v => some v
       | Option.none => lookupArg cur k)
  | [], cur, k, _ => rfl
  | (k0, v0) :: l, cur, k, hnd => by
      simp only [List.map_cons, List.nodup_cons] at hnd
      rw [objectAssign_cons, objectAssign_lookup l (jsSet cur k0 v0) k hnd.2]
      by_cases h0 : k0 = k
      · subst h0
        rw [lookupArg_eq_none l k0 hnd.1, lookupArg, if_pos rfl]
        exact jsSet_lookup_self cur k0 v0
      · rw [lookupArg, if_neg h0]
        cases hl : lookupArg l k with
        | none => exact jsSet_lookup_other cur k0 v0 k (fun he => h0 he.symm)
        | some v => rfl

theorem assocList_ext : ∀ (as bs : Args),
    as.map Prod.fst = bs.map Prod.fst → (as.map Prod.fst).Nodup →
    (∀ k, lookupArg as k = lookupArg bs k) → as = bs
  | [], [], _, _, _ => rfl
  | [], (k, v) :: bs, hk, _, _ => by simp at hk
  | (k, v) :: as, [], hk, _, _ => by simp at hk
  | (ka, va) :: as, (kb, vb) :: bs, hk, hnd, hl => by
      simp only [List.map_cons, List.cons.injEq] at hk
      obtain ⟨hab, htail⟩ := hk
      subst hab
      have hv : some va = some vb := by
        have h := hl ka
        rwa [lookupArg, if_pos rfl, lookupArg, if_pos rfl] at h
      have hv' : va = vb := by injection hv
      simp only [List.map_cons, List.nodup_cons] at hnd
      have htl : ∀ k, lookupArg as k = lookupArg bs k := by
        intro k
        by_cases hk0 : ka = k
        · subst hk0
          rw [lookupArg_eq_none as ka hnd.1, lookupArg_eq_none bs ka (htail ▸ hnd.1)]
        · have h := hl k
          rwa [lookupArg, if_neg hk0, lookupArg, if_neg hk0] at h
      rw [hv', assocList_ext as bs htail hnd.2 htl]

theorem lookup_filter_key (q : String → Bool) : ∀ (args : Args) (k : String),
    lookupArg (args.filter fun kv => q kv.1) k =
      (if q k then lookupArg args k else Option.none)
  | [], k => by cases hq : q k <;> simp [lookupArg, List.filter_nil, hq]
  | (k0, v0) :: rest, k => by
      by_cases h0 : k0 = k
      · subst h0
        cases hq : q k0 with
        | false => simp [List.filter_cons, hq, lookup_filter_key q rest k0, lookupArg]
        | true => simp [List.filter_cons, hq, lookupArg]
      · cases hq : q k0 with
        | false => simp [List.filter_cons, hq, lookup_filter_key q rest k, lookupArg, h0]
        | true => simp [List.filter_cons, hq, lookupArg, h0, lookup_filter_key q rest k]

theorem effectiveArgs_eq_of_nodup (args : Args) (hnd : (args.map Prod.fst).Nodup) :
    effectiveArgs args = args := by
  unfold effectiveArgs
  have hfsub : List.Sublist (args.filter fun kv => kv.1 != "objectIdMode") args :=
    List.filter_sublist args
  have hfkeys : ∀ k, k ∈ ((args.filter fun kv => kv.1 != "objectIdMode").map Prod.fst) →
      k ∈ args.map Prod.fst := fun k hk => (hfsub.map Prod.fst).mem hk
  have hfnd : ((args.filter fun kv => kv.1 != "objectIdMode").map Prod.fst).Nodup :=
    hnd.sublist (hfsub.map Prod.fst)
  by_cases hs : truthy (jsGet args "sort") = true
  · -- the sort value is present and truthy: it is parsed, set, then restored
    have hsome : ∃ v, lookupArg args "sort" = some v := by
      cases hl : lookupArg args "sort" with
      | none => rw [jsGet, hl] at hs; exact absurd hs (by simp [Option.getD, truthy])
      | some v => exact ⟨v, rfl⟩
    obtain ⟨v, hv⟩ := hsome
    have hkeysort : "sort" ∈ args.map Prod.fst := lookupArg_mem_keys hv
    rw [if_pos hs]
    have hkeys1 := jsSet_keys args "sort" (parseSort (jsGet args "sort")) hkeysort
    apply assocList_ext
    · rw [objectAssign_keys _ _ (fun k hk => by rw [hkeys1]; exact hfkeys k hk), hkeys1]
    · rw [objectAssign_keys _ _ (fun k hk => by rw [hkeys1]; exact hfkeys k hk), hkeys1]
      exact hnd
    · intro k
      rw [objectAssign_lookup _ _ _ hfnd, lookup_filter_key (fun k => k != "objectIdMode") args k]
      by_cases hq : (k != "objectIdMode") = true
      · rw [if_pos hq]
        cases hl : lookupArg args k with
        | none =>
            by_cases hks : k = "sort"
            · rw [hks] at hl; rw [hl] at hv; exact absurd hv (by simp)
            · exact (jsSet_lookup_other args "sort" _ k hks).trans hl
        | some w => rfl
      · rw [if_neg hq]
        have hkom : k = "objectIdMode" := by simpa using hq
        exact jsSet_lookup_other args "sort" _ k (by rw [hkom]; intro h; exact absurd h (by decide))
  · rw [if_neg hs]
    apply assocList_ext
    · exact objectAssign_keys _ _ hfkeys
    · rw [objectAssign_keys _ _ hfkeys]; exact hnd
    · intro k
      rw [objectAssign_lookup _ _ _ hfnd, lookup_filter_key (fun k => k != "objectIdMode") args k]
      by_cases hq : (k != "objectIdMode") = true
      · rw [if_pos hq]
        cases hl : lookupArg args k with
        | none => rfl
        | some w => rfl
      · rw [if_neg hq]

/-! ## C4 -/

/-- C4: with the server read-only, every request naming a write operation
(update, insert, createIndex) fails with the read-only violation error, for
every argument bag whatsoever, and with an empty gateway-call trace (the check
precedes argument parsing and any data-store call). -/
theorem readonly_blocks_writes (gw : Gateway) (op : String) (args : Args)
    (h : op ∈ WRITE_OPERATIONS) :
    handleCallToolRequest gw ⟨op, args⟩ true =
      (.error ("ReadonlyError: Operation '" ++ op ++ "' is not allowed in read-only mode"), []) := by
  have h' : op = "update" ∨ op = "insert" ∨ op = "createIndex" := by
    simpa [WRITE_OPERATIONS] using h
  rcases h' with h' | h' | h' <;> subst h' <;> rfl

/-- C4 witness: a read-only update request with a nonsense filter fails with
the read-only error and no gateway call. -/
theorem readonly_blocks_writes_witness :
    handleCallToolRequest gw0
        ⟨"update", [("collection", JValue.str "c"), ("filter", JValue.num 3)]⟩ true =
      (.error ("ReadonlyError: Operation '" ++ "update" ++ "' is not allowed in read-only mode"),
       []) :=
  readonly_blocks_writes gw0 "update" [("collection", JValue.str "c"), ("filter", JValue.num 3)]
    (by decide)

/-! ## C5 -/

theorem handleServerInfo_isOk (gw : Gateway) (ro : Bool) (args : Args) :
    (handleServerInfo gw ro args).1.isOk = true := by
  unfold handleServerInfo
  by_cases h : truthy (jsGet args "includeDebugInfo") = true <;>
    simp [h, Except.isOk, Except.toBool]

/-- C5: for each collection-requiring operation (query, aggregate, update,
insert, createIndex, count), when the read-only guard does not fire first, an
absent/falsy collection argument fails with the missing-collection error and a
`system.`-prefixed collection name fails with the forbidden-collection error,
both with an empty gateway trace; listCollections and serverInfo never require
a collection and always produce a success result. -/
theorem collection_safety (gw : Gateway) (args : Args) (ro : Bool) (op : String)
    (hnd : (args.map Prod.fst).Nodup)
    (hop : op ∈ COLLECTION_OPERATIONS)
    (hro : checkReadOnlyMode op ro = false) :
    (truthy (jsGet args "collection") = false →
      handleCallToolRequest gw ⟨op, args⟩ ro =
        (.error ("Collection name is required for '" ++ op ++ "' operation"), []))
    ∧ (∀ s, jsGet args "collection" = JValue.str s → strStartsWith s "system." = true →
        handleCallToolRequest gw ⟨op, args⟩ ro =
          (.error "Access to system collections is not allowed", []))
    ∧ (∀ (gw' : Gateway) (args' : Args) (ro' : Bool) (op' : String),
        op' = "listCollections" ∨ op' = "serverInfo" →
        ((handleCallToolRequest gw' ⟨op', args'⟩ ro').1).isOk = true) := by
  have h6 : op = "query" ∨ op = "aggregate" ∨ op = "update" ∨ op = "insert"
      ∨ op = "createIndex" ∨ op = "count" := by
    simpa [COLLECTION_OPERATIONS] using hop
  refine ⟨?_, ?_, ?_⟩
  · intro hcol
    rcases h6 with h' | h' | h' | h' | h' | h' <;> subst h' <;>
      simp only [handleCallToolRequest, effectiveArgs_eq_of_nodup args hnd] <;>
      simp [validateOperation, checkReadOnlyMode, WRITE_OPERATIONS, COLLECTION_OPERATIONS,
        hcol, hro] <;>
      simp [checkReadOnlyMode, WRITE_OPERATIONS] at hro <;> simp [hro]
  · intro s hcoleq hsys
    have hs_ne : s ≠ "" := by
      intro he
      subst he
      exact absurd hsys (by decide)
    rcases h6 with h' | h' | h' | h' | h' | h' <;> subst h' <;>
      simp only [handleCallToolRequest, effectiveArgs_eq_of_nodup args hnd] <;>
      simp [validateOperation, checkReadOnlyMode, WRITE_OPERATIONS, COLLECTION_OPERATIONS,
        hcoleq, truthy, hs_ne, collectionNameOf, validateCollection, hsys, hro] <;>
      simp [checkReadOnlyMode, WRITE_OPERATIONS] at hro <;> simp [hro]
  · intro gw' args' ro' op' hcase
    rcases hcase with h' | h' <;> subst h'
    · cases ro' <;> rfl
    · cases ro' <;> exact handleServerInfo_isOk gw' _ (effectiveArgs args')

/-- C5 witness: querying `system.profile` fails with the forbidden-collection
error and no gateway call. -/
theorem collection_safety_witness :
    handleCallToolRequest gw0 ⟨"query", [("collection", JValue.str "system.profile")]⟩ false =
      (.error "Access to system collections is not allowed", []) :=
  (collection_safety gw0 [("collection", JValue.str "system.profile")] false "query"
      (by decide) (by decide) (by decide)).2.1 "system.profile" rfl (by decide)

/-! ## C6 -/

/-- C6: a non-explain query (limit defaulting to 10, skip to 0) succeeds with
the found results plus metadata whose `returned` is the number of results and
whose `hasMore` is `skip + returned < total`, issuing exactly the count and
find gateway calls; in particular with limit 5 and skip 10 against 12 matching
documents and a gateway returning 2 documents, `returned` is 2 and `hasMore`
is false. -/
theorem query_payload_metadata (gw : Gateway) (coll : String) (args : Args) (mode : OidMode)
    (qf : List (String × BValue))
    (hexp : truthy (jsGet args "explain") = false)
    (hf : parseFilter (jsGet args "filter") mode = .ok qf) :
    (handleQuery gw (some coll) args mode =
      (let limit := numericOr (lookupArg args "limit") 10
       let skip := numericOr (lookupArg args "skip") 0
       let opts : FindOpts := ⟨jsGet args "projection", limit, skip, jsGet args "sort"⟩
       let results := gw.find coll qf opts
       let total := gw.countDocuments coll qf
       (.ok (.obj [("results", .arr results),
          ("metadata", .obj [("total", .num total), ("returned", .num results.length),
            ("skip", .num skip), ("limit", .num limit),
            ("hasMore", .bool (decide (skip + (results.length : Int) < total)))])]),
        [GCall.countDocuments coll qf, GCall.find coll qf opts])))
    ∧ (lookupArg args "limit" = some (JValue.num 5) →
       lookupArg args "skip" = some (JValue.num 10) →
       gw.countDocuments coll qf = 12 →
       (gw.find coll qf ⟨jsGet args "projection", 5, 10, jsGet args "sort"⟩).length = 2 →
       handleQuery gw (some coll) args mode =
         (.ok (.obj [("results",
             .arr (gw.find coll qf ⟨jsGet args "projection", 5, 10, jsGet args "sort"⟩)),
            ("metadata", .obj [("total", .num 12), ("returned", .num 2),
              ("skip", .num 10), ("limit", .num 5), ("hasMore", .bool false)])]),
          [GCall.countDocuments coll qf,
           GCall.find coll qf ⟨jsGet args "projection", 5, 10, jsGet args "sort"⟩])) := by
  constructor
  · unfold handleQuery
    rw [hf]
    simp [hexp]
  · intro h5 h10 h12 hlen
    have hlim : numericOr (lookupArg args "limit") 10 = 5 := by rw [h5]; rfl
    have hskip : numericOr (lookupArg args "skip") 0 = 10 := by rw [h10]; rfl
    unfold handleQuery
    rw [hf]
    simp only [hexp, Bool.false_eq_true, if_false, hlim, hskip, h12, hlen]
    norm_num

/-- C6 witness: against the concrete gateway (count 12, find yielding 2
documents), a query with limit 5 and skip 10 returns `returned = 2` and
`hasMore = false`. -/
theorem query_payload_metadata_witness :
    handleQuery gw0 (some "c") [("limit", JValue.num 5), ("skip", JValue.num 10)] OidMode.auto =
      (.ok (.obj [("results",
          .arr (gw0.find "c" [] ⟨JValue.null, 5, 10, JValue.null⟩)),
         ("metadata", .obj [("total", .num 12), ("returned", .num 2),
           ("skip", .num 10), ("limit", .num 5), ("hasMore", .bool false)])]),
       [GCall.countDocuments "c" [], GCall.find "c" [] ⟨JValue.null, 5, 10, JValue.null⟩]) :=
  (query_payload_metadata gw0 "c" [("limit", JValue.num 5), ("skip", JValue.num 10)]
      OidMode.auto [] rfl rfl).2 rfl rfl rfl rfl

/-! ## C7 -/

/-- C7: insert fails on an empty documents array before any gateway call;
when the gateway's insertMany raises a bulk-write error, the handler answers
with a success-shaped payload {error, writeErrors, insertedCount, failedCount}
instead of failing; every other insert error is re-raised naming the operation
and the collection. -/
theorem insert_empty_and_bulk (gw : Gateway) (coll : String) (args : Args) (mode : OidMode) :
    (jsGet args "documents" = JValue.arr [] →
      handleInsert gw (some coll) args mode = (.error "Documents array cannot be empty", []))
    ∧ (∀ docs, jsGet args "documents" = JValue.arr docs → docs ≠ [] →
        docs.all (fun doc => match doc with | JValue.obj _ => true | _ => false) = true →
        (let processedDocuments := docs.map fun doc =>
           match doc with
           | JValue.obj kvs => BValue.obj (processObjectIdInFilter mode kvs)
           | d => toB d
         let opts : InsertOpts := ⟨(match lookupArg args "ordered" with
             | some (JValue.bool false) => false | _ => true),
           jsGet args "writeConcern", jsGet args "bypassDocumentValidation"⟩
         (∀ we ni nf, gw.insertMany coll processedDocuments opts = .bulkError we ni nf →
            handleInsert gw (some coll) args mode =
              (.ok (.obj [("error", .str "Bulk write error occurred"),
                 ("writeErrors", .arr we),
                 ("insertedCount", .num (ni.getD 0)),
                 ("failedCount", .num (nf.getD 0))]),
               [GCall.insertMany coll processedDocuments opts]))
         ∧ (∀ msg, gw.insertMany coll processedDocuments opts = .otherError msg →
            handleInsert gw (some coll) args mode =
              (.error ("Failed to insert collection " ++ coll ++ ": " ++ msg),
               [GCall.insertMany coll processedDocuments opts])))) := by
  constructor
  · intro h
    unfold handleInsert
    rw [h]
    simp
  · intro docs hdocs hne hall
    dsimp only
    have hlen : ¬ docs.length = 0 := by simpa using hne
    constructor
    · intro we ni nf hout
      unfold handleInsert
      rw [hdocs]
      simp only [hlen, if_false, hall, if_true, hout]
    · intro msg hout
      unfold handleInsert
      rw [hdocs]
      simp only [hlen, if_false, hall, if_true, hout]

/-- C7 witness: with the bulk-error gateway, inserting one valid document
yields the partial-success payload; and an empty documents array fails with
the empty-documents error before any gateway call. -/
theorem insert_empty_and_bulk_witness :
    handleInsert gwBulk (some "c")
        [("documents", JValue.arr [JValue.obj [("a", JValue.num 1)]])] OidMode.auto =
      (.ok (.obj [("error", .str "Bulk write error occurred"),
         ("writeErrors", .arr [BValue.obj [("index", BValue.num 1)]]),
         ("insertedCount", .num 1), ("failedCount", .num 2)]),
       [GCall.insertMany "c" [BValue.obj [("a", BValue.num 1)]] ⟨true, JValue.null, JValue.null⟩])
    ∧ handleInsert gwBulk (some "c") [("documents", JValue.arr [])] OidMode.auto =
      (.error "Documents array cannot be empty", []) :=
  ⟨((insert_empty_and_bulk gwBulk "c"
        [("documents", JValue.arr [JValue.obj [("a", JValue.num 1)]])] OidMode.auto).2
      [JValue.obj [("a", JValue.num 1)]] rfl (by simp) rfl).1
      [BValue.obj [("index", BValue.num 1)]] (some 1) (some 2) rfl,
   (insert_empty_and_bulk gwBulk "c" [("documents", JValue.arr [])] OidMode.auto).1 rfl⟩

/-! ## C9 -/

/-- C9: because defaults use JavaScript truthiness, an explicit limit of 0 is
replaced by 10 in a query and by 20 in listCollections (so an effective limit
of zero cannot be requested), and any falsy numeric option value is replaced
by its default. -/
theorem limit_zero_replaced (gw : Gateway) (coll : String) (args : Args) (mode : OidMode)
    (qf : List (String × BValue)) :
    (lookupArg args "limit" = some (JValue.num 0) →
      truthy (jsGet args "explain") = false →
      parseFilter (jsGet args "filter") mode = .ok qf →
      (handleQuery gw (some coll) args mode).2 =
        [GCall.countDocuments coll qf,
         GCall.find coll qf
           ⟨jsGet args "projection", 10, numericOr (lookupArg args "skip") 0, jsGet args "sort"⟩])
    ∧ (lookupArg args "limit" = some (JValue.num 0) →
        ∃ res total returned skip hasMore tr,
          handleListCollections gw args mode =
            (.ok (.obj [("results", res),
               ("metadata", .obj [("total", total), ("returned", returned),
                 ("skip", skip), ("limit", BValue.num 20), ("hasMore", hasMore)])]), tr))
    ∧ (∀ v d, truthy v = false → numericOr (some v) d = d)
    ∧ (∀ ov : Option JValue, numericOr ov 10 ≠ 0) := by
  refine ⟨?_, ?_, ?_, ?_⟩
  · intro h0 hexp hf
    have hlim : numericOr (lookupArg args "limit") 10 = 10 := by rw [h0]; rfl
    unfold handleQuery
    rw [hf]
    simp [hexp, hlim]
  · intro h0
    have hlim : numericOr (lookupArg args "limit") 20 = 20 := by rw [h0]; rfl
    unfold handleListCollections
    rw [hlim]
    exact ⟨_, _, _, _, _, _, rfl⟩
  · intro v d hv
    cases v with
    | num n =>
        have hn : n = 0 := by simpa [truthy] using hv
        simp [numericOr, hn]
    | null => rfl
    | bool b => rfl
    | str s => rfl
    | arr xs => simp [truthy] at hv
    | obj kvs => simp [truthy] at hv
  · intro ov
    match ov with
    | Option.none => simp [numericOr]
    | some (JValue.num n) =>
        by_cases hn : n = 0 <;> simp [numericOr, hn]
    | some JValue.null => simp [numericOr]
    | some (JValue.bool b) => simp [numericOr]
    | some (JValue.str s) => simp [numericOr]
    | some (JValue.arr xs) => simp [numericOr]
    | some (JValue.obj kvs) => simp [numericOr]

/-- C9 witness: a query with an explicit limit of 0 issues its find with
limit 10, and listCollections with limit 0 reports limit 20. -/
theorem limit_zero_replaced_witness :
    (handleQuery gw0 (some "c") [("limit", JValue.num 0)] OidMode.auto).2 =
      [GCall.countDocuments "c" [],
       GCall.find "c" [] ⟨JValue.null, 10, 0, JValue.null⟩]
    ∧ ∃ res total returned skip hasMore tr,
        handleListCollections gw0 [("limit", JValue.num 0)] OidMode.auto =
          (.ok (.obj [("results", res),
             ("metadata", .obj [("total", total), ("returned", returned),
               ("skip", skip), ("limit", BValue.num 20), ("hasMore", hasMore)])]), tr) :=
  ⟨(limit_zero_replaced gw0 "c" [("limit", JValue.num 0)] OidMode.auto []).1 rfl rfl rfl,
   (limit_zero_replaced gw0 "c" [("limit", JValue.num 0)] OidMode.auto []).2.1 rfl⟩

/-! ## C8 -/

/-- C8 counterexample: a JSON-string filter parsing to a bare number or an
array is NOT rejected — the number becomes the empty filter and the array
becomes an index-keyed object — contradicting the claim that values produced
by parsing a string are rejected when they are arrays or non-object scalars. -/
theorem parsed_scalar_not_rejected :
    parseFilter (JValue.str "42") OidMode.auto = .ok []
    ∧ parseFilter (JValue.str "[1,2]") OidMode.auto
      = .ok [("0", BValue.num 1), ("1", BValue.num 2)] :=
  ⟨rfl, rfl⟩

/-- C8 (amended): an absent or falsy filter is the empty filter; a string is
JSON-parsed first and a parse failure is the invalid-format error; a direct
array or non-object truthy scalar is rejected; but a value produced by
parsing a string is never shape-rejected: it is handed to the processor via
Object.entries semantics (objects processed normally, arrays and strings
becoming index-keyed objects, numbers and booleans the empty filter), except
a parsed null whose entries lookup throws and is reported as the same
invalid-format error. -/
theorem parseFilter_behaviour (mode : OidMode) :
    (∀ f, truthy f = false → parseFilter f mode = .ok [])
    ∧ (∀ s, s ≠ "" → jsonParse s = Option.none →
        parseFilter (JValue.str s) mode = .error "Invalid filter format: must be a valid JSON object")
    ∧ (∀ s v kvs, s ≠ "" → jsonParse s = some v → jsEntries v = some kvs →
        parseFilter (JValue.str s) mode = .ok (processObjectIdInFilter mode kvs))
    ∧ (∀ s, s ≠ "" → jsonParse s = some JValue.null →
        parseFilter (JValue.str s) mode = .error "Invalid filter format: must be a valid JSON object")
    ∧ (∀ kvs, parseFilter (JValue.obj kvs) mode = .ok (processObjectIdInFilter mode kvs))
    ∧ (∀ xs, parseFilter (JValue.arr xs) mode = .error "Query filter must be a plain object or ObjectId")
    ∧ (∀ n : Int, n ≠ 0 → parseFilter (JValue.num n) mode = .error "Query filter must be a plain object or ObjectId")
    ∧ parseFilter (JValue.bool true) mode = .error "Query filter must be a plain object or ObjectId" := by
  refine ⟨?_, ?_, ?_, ?_, ?_, ?_, ?_, ?_⟩
  · intro f hf
    unfold parseFilter
    rw [hf]
    simp
  · intro s hs hp
    unfold parseFilter
    simp [truthy, hs, hp]
  · intro s v kvs hs hp he
    unfold parseFilter
    simp [truthy, hs, hp, he]
  · intro s hs hp
    unfold parseFilter
    simp [truthy, hs, hp, jsEntries]
  · intro kvs
    unfold parseFilter
    simp [truthy]
  · intro xs
    unfold parseFilter
    simp [truthy]
  · intro n hn
    unfold parseFilter
    simp [truthy, hn]
  · unfold parseFilter
    simp [truthy]

/-- C8 witness: a malformed JSON string filter reports the invalid-format
error, and a direct array filter is rejected with the plain-object error. -/
theorem parseFilter_behaviour_witness :
    parseFilter (JValue.str "]") OidMode.auto
      = .error "Invalid filter format: must be a valid JSON object"
    ∧ parseFilter (JValue.arr [JValue.num 1]) OidMode.auto
      = .error "Query filter must be a plain object or ObjectId" :=
  ⟨(parseFilter_behaviour OidMode.auto).2.1 "]" (by decide) rfl,
   (parseFilter_behaviour OidMode.auto).2.2.2.2.2.1 [JValue.num 1]⟩

/-! ## C10 -/

/-- C10 counterexample: a query request carrying the sort `{a: 2}` dispatches
its find with that raw sort value even though the sanitizer maps it to null —
the parsed sort is overwritten by the restore of the original arguments, so
the sort is NOT sanitized before dispatch. -/
theorem sort_not_sanitized :
    (handleCallToolRequest gw0
        ⟨"query", [("collection", JValue.str "c"), ("sort", JValue.obj [("a", JValue.num 2)])]⟩
        false).2 =
      [GCall.countDocuments "c" [],
       GCall.find "c" [] ⟨JValue.null, 10, 0, JValue.obj [("a", JValue.num 2)]⟩]
    ∧ parseSort (JValue.obj [("a", JValue.num 2)]) = JValue.null
    ∧ JValue.obj [("a", JValue.num 2)] ≠ JValue.null :=
  ⟨rfl, rfl, fun h => JValue.noConfusion h⟩

/-- C10 (amended): `parseSort` does sanitize as described — falsy,
non-object or array sorts become null, only entries valued exactly 1 or -1
survive, and an empty survivor set becomes null — but the dispatcher then
merges the original arguments back over the rewritten bag, so the argument
bag reaching the handlers (sort included) is the original one and the
sanitized sort never reaches dispatch. -/
theorem sort_parsed_but_restored (args : Args) (hnd : (args.map Prod.fst).Nodup) :
    effectiveArgs args = args
    ∧ (∀ v, truthy v = false → parseSort v = JValue.null)
    ∧ (∀ xs, parseSort (JValue.arr xs) = JValue.null)
    ∧ (∀ s, parseSort (JValue.str s) = JValue.null)
    ∧ (∀ n : Int, parseSort (JValue.num n) = JValue.null)
    ∧ (∀ b, parseSort (JValue.bool b) = JValue.null)
    ∧ (∀ kvs,
        parseSort (JValue.obj kvs) =
          (let validSort := kvs.filter fun kv =>
             match kv.2 with
             | JValue.num n => decide (n = 1) || decide (n = -1)
             | _ => false
           if validSort.length > 0 then JValue.obj validSort else JValue.null)) := by
  refine ⟨effectiveArgs_eq_of_nodup args hnd, ?_, ?_, ?_, ?_, ?_, ?_⟩
  · intro v hv
    unfold parseSort
    rw [hv]
    simp
  · intro xs
    rfl
  · intro s
    by_cases hs : s = ""
    · subst hs; rfl
    · unfold parseSort
      simp [truthy, hs]
  · intro n
    by_cases hn : n = 0
    · subst hn; rfl
    · unfold parseSort
      simp [truthy, hn]
  · intro b
    cases b <;> rfl
  · intro kvs
    unfold parseSort
    simp [truthy]

/-- C10 witness: a concrete argument bag with a partially valid sort is
dispatched unchanged. -/
theorem sort_parsed_but_restored_witness :
    effectiveArgs [("sort", JValue.obj [("a", JValue.num 1), ("b", JValue.num 3)]),
        ("objectIdMode", JValue.str "force")] =
      [("sort", JValue.obj [("a", JValue.num 1), ("b", JValue.num 3)]),
       ("objectIdMode", JValue.str "force")] :=
  (sort_parsed_but_restored
      [("sort", JValue.obj [("a", JValue.num 1), ("b", JValue.num 3)]),
       ("objectIdMode", JValue.str "force")] (by decide)).1
